import Mathlib

/-!
Shallow embedding of `src/native/cpp/NativeCameraProcessor.cpp` (class
`NativeCameraProcessor`), covering the calibration pipeline
(`performAutomaticCalibration`, `performStereoCalibration`,
`performBundleAdjustment`, `calculateReprojectionResiduals`,
`calculateReprojectedPoint`), the multi-frame path (`processMultiFrame`,
`perform3DTriangulation`, `getCorrespondingPoints`, `validateTriangulation`,
`store3DPoints`) and the measurement reporter
(`calculatePreciseMeasurements`).

Machine doubles are modelled as exact rationals; pixel buffers are opaque
tokens.  Calls into OpenCV (`calibrateCamera`, `stereoCalibrate`,
`triangulatePoints`, `imdecode`, ...) are outside the repository: where a
function's observable behaviour depends on such a call, the call's result is
threaded in as an explicit argument, and only the control flow and arithmetic
written in the C++ file itself is embedded.
-/

/-- Image point with rational coordinates (cv::Point2f, exact model). -/
structure Pt2 where
  x : ℚ
  y : ℚ
deriving DecidableEq, Repr

/-- Triangulated 3D point (cv::Point3f, exact model). -/
structure Pt3 where
  x : ℚ
  y : ℚ
  z : ℚ
deriving DecidableEq, Repr

/-- Calibration-relevant state of a `NativeCameraProcessor` instance:
`cameraCount` and the per-camera accumulated observed image points
`imagePointsPerCamera` (field `vector<vector<Point2f>> imagePointsPerCamera`,
sized to `cameraCount` by `initialize`). -/
structure ProcState where
  cameraCount : Nat
  imagePointsPerCamera : List (List Pt2)
deriving DecidableEq, Repr

/-- Flags passed to `cv::calibrateCamera` at source lines 137-146.  The C++
passes the bitmask
`CALIB_FIX_PRINCIPAL_POINT | CALIB_FIX_ASPECT_RATIO | CALIB_ZERO_TANGENT_DIST`;
the three bits are modelled as three booleans. -/
structure CalibFlags where
  fixPrincipalPoint : Bool
  fixAspectRatio : Bool
  zeroTangentDist : Bool
deriving DecidableEq, Repr

/-- The flag set the monocular-calibration loop passes for camera `camIdx`.
In the source the same literal bitmask is written once inside the loop body,
with no dependence on the camera index or on any per-camera hardware
property. -/
def monoCalibrationFlags (camIdx : Nat) : CalibFlags :=
  { fixPrincipalPoint := true, fixAspectRatio := true, zeroTangentDist := true }

/-- Outcome of the per-camera branch of the calibration loop (lines 128-151):
either the camera is skipped for having fewer than 10 accumulated points
(`continue` at line 131, after the `cerr` message), or `calibrateCamera` is
invoked on it with the recorded flag set. -/
inductive CamStatus where
  | insufficientSamples : CamStatus
  | calibrated : CalibFlags → CamStatus
deriving DecidableEq, Repr

/-- Stereo extrinsics produced by `cv::stereoCalibrate` (the rotation matrix
`R` and translation vector `T` that lines 206-207 store into
`rotationMatrices[cam2Idx]` / `translationVectors[cam2Idx]`). -/
structure StereoExtr where
  R : List (List ℚ)
  T : List ℚ
deriving DecidableEq, Repr

/-- Result of `performStereoCalibration` as observable from the class state:
the returned boolean together with the stored extrinsics (`none` when the
early-return at lines 170-173 fires and nothing is stored). -/
def performStereoCalibration (s : ProcState) (cam1Idx cam2Idx : Nat)
    (stereoSolve : List Pt2 → List Pt2 → StereoExtr) : Bool × Option StereoExtr :=
  if (s.imagePointsPerCamera.getD cam1Idx []).isEmpty
      || (s.imagePointsPerCamera.getD cam2Idx []).isEmpty then
    (false, none)
  else
    let numImages := min (s.imagePointsPerCamera.getD cam1Idx []).length
      (s.imagePointsPerCamera.getD cam2Idx []).length
    let pts1 := (s.imagePointsPerCamera.getD cam1Idx []).take numImages
    let pts2 := (s.imagePointsPerCamera.getD cam2Idx []).take numImages
    (true, some (stereoSolve pts1 pts2))

/-- Observable outcome of `performAutomaticCalibration`: the returned boolean,
the per-camera branch taken by the loop at lines 128-151, and the boolean
returned by the `performStereoCalibration(0, 1)` call at line 155 (discarded
by the caller; `none` when the camera-count guard returned early). -/
structure CalibrationOutcome where
  returnValue : Bool
  cameraStatuses : List CamStatus
  stereoReturn : Option Bool
deriving DecidableEq, Repr

/-- Embedding of `performAutomaticCalibration` (lines 108-162).  The guard at
lines 109-112 returns `false` when fewer than 2 cameras are configured; every
other path runs the per-camera loop, the stereo calibration of pair (0, 1)
and `performBundleAdjustment`, and returns `true` (line 161) regardless of
those stages' outcomes. -/
def performAutomaticCalibration (s : ProcState)
    (stereoSolve : List Pt2 → List Pt2 → StereoExtr) : CalibrationOutcome :=
  if s.cameraCount < 2 then
    { returnValue := false, cameraStatuses := [], stereoReturn := none }
  else
    { returnValue := true
      cameraStatuses := (List.range s.cameraCount).map fun camIdx =>
        if (s.imagePointsPerCamera.getD camIdx []).length < 10 then
          CamStatus.insufficientSamples
        else
          CamStatus.calibrated (monoCalibrationFlags camIdx)
      stereoReturn := some (performStereoCalibration s 0 1 stereoSolve).1 }

/-- Embedding of `calculateReprojectedPoint` (lines 571-574): the body is the
placeholder `return Point2f(0, 0)`, ignoring the camera index, the point
index and the parameter vector. -/
def calculateReprojectedPoint (cameraIdx pointIdx : Nat) (params : List ℚ) : Pt2 :=
  { x := 0, y := 0 }

/-- Embedding of `calculateReprojectionResiduals` (lines 551-569): for each
camera and each of its observed points, the residuals `observed.x -
reprojected.x` and `observed.y - reprojected.y` are appended, where the
reprojected point comes from `calculateReprojectedPoint`. -/
def calculateReprojectionResiduals (s : ProcState) (params : List ℚ) : List ℚ :=
  (List.range s.cameraCount).flatMap fun cam =>
    (List.range (s.imagePointsPerCamera.getD cam []).length).flatMap fun pointIdx =>
      let observed := (s.imagePointsPerCamera.getD cam []).getD pointIdx { x := 0, y := 0 }
      let reprojected := calculateReprojectedPoint cam pointIdx params
      [observed.x - reprojected.x, observed.y - reprojected.y]

/-- Embedding of `performBundleAdjustment` (lines 242-289).  The body declares
local vectors, computes a point total, defines a residual lambda that is
never invoked, and prints two messages; no member of the class is written and
no optimizer is run, so on the calibration state the function is the
identity. -/
def performBundleAdjustment (s : ProcState) : ProcState := s

/-- Decoded pixel buffer (cv::Mat image); opaque token, its pixel content
plays no role in the embedded control flow. -/
abbrev Frame := Nat

/-- Insertion into `std::map<int, Mat> currentFrames` via `operator[]`:
key-value semantics with overwrite of an existing key (association-list model;
the map's internal key ordering is irrelevant to lookups). -/
def mapInsert (m : List (Nat × Frame)) (k : Nat) (v : Frame) : List (Nat × Frame) :=
  m.filter (fun p => p.1 != k) ++ [(k, v)]

/-- One iteration of the decode-and-store loop (lines 318-330): a frame whose
decode failed (`frame.empty()`) is skipped with `continue`; a decoded frame
is stored under its camera id. -/
def storeStep (m : List (Nat × Frame)) (p : Nat × Option Frame) : List (Nat × Frame) :=
  match p.2 with
  | none => m
  | some f => mapInsert m p.1 f

/-- The decode-and-store loop of `processMultiFrame` (lines 318-330) over the
batch of `(cameraId, imdecode result)` pairs, starting from the cleared map
of line 315.  The `imdecode` call is external, so each element carries its
decode result (`none` = decode failure). -/
def storeDecodedFrames (batch : List (Nat × Option Frame)) : List (Nat × Frame) :=
  batch.foldl storeStep []

/-- Synchronization tolerance of line 309: `0.016667` seconds (16.667 ms). -/
def syncTolerance : ℚ := 16667 / 1000000

/-- Largest element of a timestamp list as `minmax_element` computes it on the
nonempty range (head as the seed). -/
def listMax (ts : List ℚ) : ℚ := ts.foldl max (ts.headD 0)

/-- Smallest element of a timestamp list as `minmax_element` computes it on
the nonempty range (head as the seed). -/
def listMin (ts : List ℚ) : ℚ := ts.foldl min (ts.headD 0)

/-- Observable outcome of `processMultiFrame` (lines 295-352): whether the
desynchronization warning at line 310 is printed, and the synchronized frame
set `currentFrames` left by the decode loop.  Lines 304-312: the warning
fires iff more than one timestamp was submitted and `max - min > 0.016667`;
the batch is then decoded and processed unconditionally. -/
def processMultiFrame (frameDataList : List (Option Frame)) (timestamps : List ℚ)
    (cameraIds : List Nat) : Bool × List (Nat × Frame) :=
  let warn :=
    if 1 < timestamps.length then
      decide (syncTolerance < listMax timestamps - listMin timestamps)
    else
      false
  (warn, storeDecodedFrames (cameraIds.zip frameDataList))

/-- Embedding of `getCorrespondingPoints` (lines 632-635): the body is empty
(a comment), so the two output vectors it is supposed to fill keep the empty
value they were constructed with at line 472. -/
def getCorrespondingPoints : List Pt2 × List Pt2 := ([], [])

/-- Homogeneous 4-vector produced per point by `cv::triangulatePoints`. -/
structure Pt4 where
  x : ℚ
  y : ℚ
  z : ℚ
  w : ℚ
deriving DecidableEq, Repr

/-- Homogeneous-to-3D conversion loop of lines 493-501: each column is
divided by its fourth coordinate. -/
def homogeneousTo3D (points4D : List Pt4) : List Pt3 :=
  points4D.map fun p => { x := p.x / p.w, y := p.y / p.w, z := p.z / p.w }

/-- Embedding of `perform3DTriangulation` (lines 463-510), returning the list
of triangulated 3D points the pass produces.  `numFrames` is
`currentFrames.size()`; the DLT solve `cv::triangulatePoints` is external and
threaded in as `triangulate`.  Control flow: fewer than 2 frames returns at
line 468; the correspondences come from `getCorrespondingPoints`; fewer than
8 correspondences returns at line 477; otherwise the solve runs and the
homogeneous output is converted. -/
def perform3DTriangulation (numFrames : Nat)
    (triangulate : List Pt2 → List Pt2 → List Pt4) : List Pt3 :=
  if numFrames < 2 then
    []
  else
    let pts := getCorrespondingPoints
    if pts.1.length < 8 then
      []
    else
      homogeneousTo3D (triangulate pts.1 pts.2)

/-- Quality classes printed by `validateTriangulation` (lines 616-622). -/
inductive TriQuality where
  | highQuality : TriQuality
  | degraded : TriQuality
  | unreliable : TriQuality
deriving DecidableEq, Repr

/-- Mean two-view reprojection error of lines 606-613: the per-point error
norms against camera 1 and camera 2 (computed by the external
`cv::projectPoints` / `cv::norm`) are summed over the points and divided by
`2 * points1.size()`. -/
def meanReprojError (errors1 errors2 : List ℚ) : ℚ :=
  (errors1.sum + errors2.sum) / (2 * errors1.length)

/-- Classification branch of lines 616-622: `< 1.0` high quality, else
`< 2.0` degraded, else unreliable. -/
def classifyTriangulation (e : ℚ) : TriQuality :=
  if e < 1 then TriQuality.highQuality
  else if e < 2 then TriQuality.degraded
  else TriQuality.unreliable

/-- Embedding of `store3DPoints` (lines 637-640): the function receives the
full triangulated list and prints its size; no filtering by quality occurs,
so the list handed onward is the input list itself. -/
def store3DPoints (points3D : List Pt3) : List Pt3 := points3D

/-- Tail of `perform3DTriangulation` (lines 503-509): after triangulation the
pass is validated (classified by its mean reprojection error) and the 3D
points are passed to `store3DPoints`; the store call is unconditional, not
gated on the classification. -/
def validateAndStore (points3D : List Pt3) (errors1 errors2 : List ℚ) :
    TriQuality × List Pt3 :=
  (classifyTriangulation (meanReprojError errors1 errors2), store3DPoints points3D)

/-- Report printed by `calculatePreciseMeasurements` (lines 521-530): the
depth mean, the depth variance (square of the printed standard deviation) and
the square of the printed uncertainty band `stdDepth * 1.96`.  Squares are
reported so the whole record stays rational. -/
structure MeasurementReport where
  meanDepth : ℚ
  varDepth : ℚ
  uncertaintyBandSq : ℚ
deriving DecidableEq, Repr

/-- Embedding of `calculatePreciseMeasurements` (lines 515-533) on the depth
map, modelled as the list of its depth values.  When the map is nonempty,
`cv::meanStdDev(depthMap, ...)` runs over every element of the map — there is
no validity mask argument — accumulating the sum and the sum of squares:
mean `m = (Σ x) / n`, variance `(Σ x²) / n - m²`.  The reported uncertainty is
`1.96 · σ`, carried here as its square `(49/25)² · variance`. -/
def calculatePreciseMeasurements (depthMap : List ℚ) : Option MeasurementReport :=
  if depthMap.isEmpty then
    none
  else
    let n : ℚ := depthMap.length
    let m := depthMap.sum / n
    let v := (depthMap.map fun x => x * x).sum / n - m * m
    some { meanDepth := m, varDepth := v, uncertaintyBandSq := (49 / 25) ^ 2 * v }

/-- Modelled from the spec (section 4.8): the spec's reporter computes the
statistics "over valid pixels" only.  Valid pixels are those carrying a
positive depth (section 4.4 excludes pixels with zero or negative disparity,
hence non-positive depth).  This definition follows the spec's words, for
comparison against `calculatePreciseMeasurements` above, which embeds the
code. -/
def specValidDepths (depthMap : List ℚ) : List ℚ :=
  depthMap.filter fun x => 0 < x

/-- Modelled from the spec (section 4.8): mean depth over the valid pixels
only. -/
def specMeanValidDepth (depthMap : List ℚ) : ℚ :=
  (specValidDepths depthMap).sum / (specValidDepths depthMap).length

/-! Helper lemmas about the association-list frame map. -/

theorem lookup_filter_ne (m : List (Nat × Frame)) (k k1 : Nat) (hne : k ≠ k1) :
    List.lookup k (m.filter fun p => p.1 != k1) = List.lookup k m := by
  induction m with
  | nil => rfl
  | cons p rest ih =>
    obtain ⟨pk, pv⟩ := p
    by_cases hp : pk = k1
    · subst hp
      simp [List.filter_cons, List.lookup_cons, beq_false_of_ne hne, ih]
    · simp [List.filter_cons, hp, List.lookup_cons, ih]

theorem lookup_mapInsert_ne (m : List (Nat × Frame)) (k k1 : Nat) (v : Frame)
    (hne : k ≠ k1) : List.lookup k (mapInsert m k1 v) = List.lookup k m := by
  unfold mapInsert
  rw [List.lookup_append, lookup_filter_ne _ _ _ hne]
  have h2 : List.lookup k [(k1, v)] = none := by
    simp [List.lookup_cons, beq_false_of_ne hne]
  rw [h2, Option.or_none]

theorem lookup_mapInsert_self (m : List (Nat × Frame)) (k : Nat) (v : Frame) :
    List.lookup k (mapInsert m k v) = some v := by
  unfold mapInsert
  rw [List.lookup_append]
  have h1 : List.lookup k (m.filter fun p => p.1 != k) = none := by
    rw [List.lookup_eq_none_iff]
    intro p hp
    have hpf := List.of_mem_filter hp
    simp only [bne_iff_ne] at hpf ⊢
    exact Ne.symm hpf
  rw [h1, Option.none_or]
  simp [List.lookup_cons]

theorem lookup_storeStep_ne (acc : List (Nat × Frame)) (pk : Nat)
    (pv : Option Frame) (k : Nat) (hk : k ≠ pk) :
    List.lookup k (storeStep acc (pk, pv)) = List.lookup k acc := by
  cases pv with
  | none => rfl
  | some f => exact lookup_mapInsert_ne _ _ _ _ hk

theorem lookup_foldl_storeStep_notmem (batch : List (Nat × Option Frame))
    (acc : List (Nat × Frame)) (k : Nat) (h : k ∉ batch.map Prod.fst) :
    List.lookup k (batch.foldl storeStep acc) = List.lookup k acc := by
  induction batch generalizing acc with
  | nil => rfl
  | cons p rest ih =>
    obtain ⟨pk, pv⟩ := p
    simp only [List.map_cons, List.mem_cons, not_or] at h
    obtain ⟨hne, hrest⟩ := h
    simp only [List.foldl_cons]
    rw [ih _ hrest, lookup_storeStep_ne _ _ _ _ hne]

theorem lookup_foldl_storeStep (batch : List (Nat × Option Frame))
    (acc : List (Nat × Frame)) (k : Nat) (hnd : (batch.map Prod.fst).Nodup) :
    List.lookup k (batch.foldl storeStep acc) =
      match List.lookup k batch with
      | some (some f) => some f
      | some none => List.lookup k acc
      | none => List.lookup k acc := by
  induction batch generalizing acc with
  | nil => rfl
  | cons p rest ih =>
    obtain ⟨pk, pv⟩ := p
    simp only [List.map_cons, List.nodup_cons] at hnd
    obtain ⟨hhead, hrest⟩ := hnd
    simp only [List.foldl_cons]
    rw [ih _ hrest]
    by_cases hk : k = pk
    · subst hk
      have hnone : List.lookup k rest = none := by
        rw [List.lookup_eq_none_iff]
        intro q hq
        simp only [bne_iff_ne]
        intro hqk
        exact hhead (hqk ▸ List.mem_map_of_mem Prod.fst hq)
      rw [hnone]
      cases pv with
      | none => simp [List.lookup_cons, storeStep, hnone]
      | some f => simp [List.lookup_cons, storeStep, hnone, lookup_mapInsert_self]
    · rw [lookup_storeStep_ne _ _ _ _ hk]
      have hcons : List.lookup k ((pk, pv) :: rest) = List.lookup k rest := by
        simp [List.lookup_cons, beq_false_of_ne hk]
      rw [hcons]

theorem lookup_storeDecodedFrames (batch : List (Nat × Option Frame)) (k : Nat)
    (hnd : (batch.map Prod.fst).Nodup) :
    List.lookup k (storeDecodedFrames batch) = (List.lookup k batch).join := by
  unfold storeDecodedFrames
  rw [lookup_foldl_storeStep _ _ _ hnd]
  cases h : List.lookup k batch with
  | none => rfl
  | some v => cases v <;> rfl

theorem lookup_of_mem_nodup (batch : List (Nat × Option Frame)) (k : Nat)
    (v : Option Frame) (hnd : (batch.map Prod.fst).Nodup) (hmem : (k, v) ∈ batch) :
    List.lookup k batch = some v := by
  induction batch with
  | nil => cases hmem
  | cons p rest ih =>
    obtain ⟨pk, pv⟩ := p
    simp only [List.map_cons, List.nodup_cons] at hnd
    obtain ⟨hhead, hrest⟩ := hnd
    rcases List.mem_cons.mp hmem with heq | htail
    · cases heq
      simp [List.lookup_cons]
    · have hk : k ≠ pk := by
        intro hkp
        exact hhead (hkp ▸ List.mem_map_of_mem Prod.fst htail)
      simp only [List.lookup_cons, beq_false_of_ne hk]
      exact ih hrest htail

/-! Helper lemmas about the calibration loop and depth statistics. -/

theorem autoCalib_status_getD (s : ProcState)
    (stereoSolve : List Pt2 → List Pt2 → StereoExtr) (i : Nat)
    (h2 : 2 ≤ s.cameraCount) (hi : i < s.cameraCount) :
    (performAutomaticCalibration s stereoSolve).cameraStatuses.getD i
        CamStatus.insufficientSamples =
      if (s.imagePointsPerCamera.getD i []).length < 10 then
        CamStatus.insufficientSamples
      else
        CamStatus.calibrated (monoCalibrationFlags i) := by
  have hguard : ¬ s.cameraCount < 2 := by omega
  simp only [performAutomaticCalibration, if_neg hguard, List.getD_eq_getElem?_getD,
    List.getElem?_map, List.getElem?_range hi]
  rfl

theorem sum_sq_sub (d : List ℚ) (m : ℚ) :
    (d.map fun x => (x - m) ^ 2).sum =
      (d.map fun x => x * x).sum - 2 * m * d.sum + d.length * m ^ 2 := by
  induction d with
  | nil => simp
  | cons a rest ih =>
    simp only [List.map_cons, List.sum_cons, List.length_cons, ih]
    push_cast
    ring

/-- C1: `performBundleAdjustment` performs no optimization at all.  The claim
says it jointly optimizes all camera parameters and poses by nonlinear least
squares; in the code the function leaves the calibration state unchanged
(identity on the state), and the reprojection residual vector it would
minimize does not even depend on the parameter vector, because
`calculateReprojectedPoint` is the constant placeholder `(0, 0)`. -/
theorem bundleAdjustment_no_optimization (s : ProcState) (params1 params2 : List ℚ) :
    performBundleAdjustment s = s ∧
      calculateReprojectionResiduals s params1 = calculateReprojectionResiduals s params2 := by
  exact ⟨rfl, rfl⟩

/-- C9: `perform3DTriangulation` produces no 3D points on any input:
`getCorrespondingPoints` is a no-op leaving both point lists empty, so the
fewer-than-8-correspondences guard always fires and the result is empty for
every frame count and every external triangulation routine (which is never
invoked). -/
theorem perform3DTriangulation_always_empty (numFrames : Nat)
    (triangulate : List Pt2 → List Pt2 → List Pt4) :
    perform3DTriangulation numFrames triangulate = [] ∧
      getCorrespondingPoints = ([], []) := by
  refine ⟨?_, rfl⟩
  unfold perform3DTriangulation
  split <;> rfl

/-- C10: `performAutomaticCalibration` returns `false` exactly when the
configured camera count is below 2 and `true` otherwise, irrespective of the
per-camera sample counts and of the stereo calibration's outcome; in
particular, on a 2-camera state with no samples at all it returns `true` even
though both cameras are skipped as insufficient and the stereo calibration
fails. -/
theorem autoCalibration_return_ignores_failures (s : ProcState)
    (stereoSolve : List Pt2 → List Pt2 → StereoExtr) :
    ((performAutomaticCalibration s stereoSolve).returnValue =
        decide (2 ≤ s.cameraCount)) ∧
      performAutomaticCalibration { cameraCount := 2, imagePointsPerCamera := [[], []] }
          stereoSolve =
        { returnValue := true
          cameraStatuses := [CamStatus.insufficientSamples, CamStatus.insufficientSamples]
          stereoReturn := some false } := by
  constructor
  · unfold performAutomaticCalibration
    by_cases h : s.cameraCount < 2
    · have : ¬ 2 ≤ s.cameraCount := by omega
      simp [h, this]
    · have : 2 ≤ s.cameraCount := by omega
      simp [h, this]
  · rfl

/-- C2 counterexample: an ordinary camera (camera 0 of a plain 2-camera state
carrying 10 observed points, with no hardware constraint or distortion-free
certification represented anywhere in the program state) is calibrated with
the principal point held fixed and tangential distortion forced to zero — the
flags are applied unconditionally, so the claim that the principal point is
estimated and p1, p2 fitted for such a camera is false. -/
theorem calibration_flags_counterexample :
    (performAutomaticCalibration
          { cameraCount := 2
            imagePointsPerCamera := [List.replicate 10 { x := 0, y := 0 }, []] }
          (fun _ _ => { R := [], T := [] })).cameraStatuses.getD 0
        CamStatus.insufficientSamples =
      CamStatus.calibrated
        { fixPrincipalPoint := true, fixAspectRatio := true, zeroTangentDist := true } := by
  rfl

/-- C2 (amended): every camera that `performAutomaticCalibration` calibrates
is calibrated with the flag set that fixes the principal point, fixes the
aspect ratio and zeroes tangential distortion; the flags do not vary with the
camera or with any state. -/
theorem calibration_flags_always_fixed (s : ProcState)
    (stereoSolve : List Pt2 → List Pt2 → StereoExtr) (f : CalibFlags)
    (h : CamStatus.calibrated f ∈ (performAutomaticCalibration s stereoSolve).cameraStatuses) :
    f.fixPrincipalPoint = true ∧ f.zeroTangentDist = true ∧ f.fixAspectRatio = true := by
  unfold performAutomaticCalibration at h
  by_cases hc : s.cameraCount < 2
  · simp [hc] at h
  · simp only [hc, if_false, List.mem_map, List.mem_range] at h
    obtain ⟨i, hi, hmem⟩ := h
    by_cases hlen : (s.imagePointsPerCamera.getD i []).length < 10
    · rw [if_pos hlen] at hmem
      cases hmem
    · rw [if_neg hlen] at hmem
      cases hmem
      exact ⟨rfl, rfl, rfl⟩

/-- Witness for C2's amended theorem: a concrete calibrated camera whose
flags the theorem pins down. -/
theorem calibration_flags_always_fixed_witness :
    (CamStatus.calibrated
          { fixPrincipalPoint := true, fixAspectRatio := true, zeroTangentDist := true } ∈
        (performAutomaticCalibration
            { cameraCount := 2
              imagePointsPerCamera := [List.replicate 10 { x := 0, y := 0 }, []] }
            (fun _ _ => { R := [], T := [] })).cameraStatuses) ∧
      ({ fixPrincipalPoint := true, fixAspectRatio := true,
          zeroTangentDist := true : CalibFlags }.fixPrincipalPoint = true ∧
        ({ fixPrincipalPoint := true, fixAspectRatio := true,
            zeroTangentDist := true : CalibFlags }.zeroTangentDist = true) ∧
        ({ fixPrincipalPoint := true, fixAspectRatio := true,
            zeroTangentDist := true : CalibFlags }.fixAspectRatio = true)) :=
  ⟨by decide,
    calibration_flags_always_fixed
      { cameraCount := 2
        imagePointsPerCamera := [List.replicate 10 { x := 0, y := 0 }, []] }
      (fun _ _ => { R := [], T := [] })
      { fixPrincipalPoint := true, fixAspectRatio := true, zeroTangentDist := true }
      (by decide)⟩

/-- C5: whether the calibration loop rejects a camera for insufficient
samples depends only on that camera's own accumulated point count: the camera
is skipped with the insufficient-samples report exactly when it holds fewer
than 10 points, it is calibrated exactly when it holds at least 10, and a
second state agreeing with the first on that camera's points (but arbitrary
elsewhere) yields the same status for that camera. -/
theorem insufficientSamples_isolated_per_camera (s t : ProcState)
    (solveS solveT : List Pt2 → List Pt2 → StereoExtr) (cam : Nat)
    (h2 : 2 ≤ s.cameraCount) (hcam : cam < s.cameraCount)
    (ht : t.cameraCount = s.cameraCount)
    (hpts : t.imagePointsPerCamera.getD cam [] = s.imagePointsPerCamera.getD cam []) :
    ((performAutomaticCalibration s solveS).cameraStatuses.getD cam
          CamStatus.insufficientSamples = CamStatus.insufficientSamples ↔
        (s.imagePointsPerCamera.getD cam []).length < 10) ∧
      ((performAutomaticCalibration s solveS).cameraStatuses.getD cam
          CamStatus.insufficientSamples =
          CamStatus.calibrated (monoCalibrationFlags cam) ↔
        10 ≤ (s.imagePointsPerCamera.getD cam []).length) ∧
      (performAutomaticCalibration t solveT).cameraStatuses.getD cam
          CamStatus.insufficientSamples =
        (performAutomaticCalibration s solveS).cameraStatuses.getD cam
          CamStatus.insufficientSamples := by
  rw [autoCalib_status_getD s solveS cam h2 hcam,
    autoCalib_status_getD t solveT cam (by omega) (by omega), hpts]
  refine ⟨?_, ?_, rfl⟩
  · by_cases hlen : (s.imagePointsPerCamera.getD cam []).length < 10
    · simp [hlen]
    · simp [hlen]
  · by_cases hlen : (s.imagePointsPerCamera.getD cam []).length < 10
    · simp only [if_pos hlen]
      constructor
      · intro hcontra
        cases hcontra
      · intro hge
        omega
    · simp only [if_neg hlen]
      constructor
      · intro _
        omega
      · intro _
        trivial

/-- Witness for C5: camera 0 with 10 points calibrates, and its status is the
same whether the sibling camera 1 has 0 points or 99 points. -/
theorem insufficientSamples_isolated_witness :
    (performAutomaticCalibration
          { cameraCount := 2
            imagePointsPerCamera := [List.replicate 10 { x := 0, y := 0 }, []] }
          (fun _ _ => { R := [], T := [] })).cameraStatuses.getD 0
        CamStatus.insufficientSamples =
      CamStatus.calibrated (monoCalibrationFlags 0) :=
  ((insufficientSamples_isolated_per_camera
      { cameraCount := 2
        imagePointsPerCamera := [List.replicate 10 { x := 0, y := 0 }, []] }
      { cameraCount := 2
        imagePointsPerCamera :=
          [List.replicate 10 { x := 0, y := 0 }, List.replicate 99 { x := 1, y := 1 }] }
      (fun _ _ => { R := [], T := [] }) (fun _ _ => { R := [], T := [] }) 0
      (by decide) (by decide) rfl rfl).2.1).mpr (by decide)

/-- C3 counterexample: on a degenerate calibration input — both cameras hold
ten copies of the same observed point, so every target pose is trivially
coplanar with the baseline — `performStereoCalibration` reports success and
stores whatever rotation and translation the external solver produced, rather
than reporting any degeneracy error; no condition-number check exists in the
function. -/
theorem stereoCalibration_degenerate_counterexample :
    performStereoCalibration
        { cameraCount := 2
          imagePointsPerCamera :=
            [List.replicate 10 { x := 0, y := 0 }, List.replicate 10 { x := 0, y := 0 }] }
        0 1
        (fun _ _ =>
          { R := [[1, 0, 0], [0, 1, 0], [0, 0, 1]], T := [0, 0, 0] }) =
      (true, some { R := [[1, 0, 0], [0, 1, 0], [0, 0, 1]], T := [0, 0, 0] }) := by
  rfl

/-- C3 (amended): `performStereoCalibration` performs no degeneracy or
condition-number check.  Whenever both cameras hold at least one observed
point, it returns `true` and stores the solver's extrinsics, for every
possible solver output — including ill-conditioned ones; its only failure
path is an empty image-point list. -/
theorem stereoCalibration_no_degeneracy_check (s : ProcState) (cam1Idx cam2Idx : Nat)
    (stereoSolve : List Pt2 → List Pt2 → StereoExtr)
    (h1 : (s.imagePointsPerCamera.getD cam1Idx []).isEmpty = false)
    (h2 : (s.imagePointsPerCamera.getD cam2Idx []).isEmpty = false) :
    (performStereoCalibration s cam1Idx cam2Idx stereoSolve).1 = true ∧
      ∃ e, (performStereoCalibration s cam1Idx cam2Idx stereoSolve).2 = some e := by
  unfold performStereoCalibration
  rw [h1, h2]
  exact ⟨rfl, _, rfl⟩

/-- Witness for C3's amended theorem at a concrete nonempty input. -/
theorem stereoCalibration_no_degeneracy_check_witness :
    (performStereoCalibration
          { cameraCount := 2
            imagePointsPerCamera := [[{ x := 0, y := 0 }], [{ x := 1, y := 1 }]] }
          0 1 (fun _ _ => { R := [], T := [] })).1 = true :=
  (stereoCalibration_no_degeneracy_check
      { cameraCount := 2
        imagePointsPerCamera := [[{ x := 0, y := 0 }], [{ x := 1, y := 1 }]] }
      0 1 (fun _ _ => { R := [], T := [] }) (by decide) (by decide)).1

/-- C4 counterexample: on the depth map `[0, 2]` — one invalid pixel of depth
0 and one valid pixel of depth 2 — the code's reported mean is 1, the mean
over all pixels, whereas the mean over the valid pixels only is 2; the
statistics are therefore not computed over the valid pixels only. -/
theorem measurements_valid_pixels_counterexample :
    (calculatePreciseMeasurements [0, 2]).map MeasurementReport.meanDepth = some 1 ∧
      specMeanValidDepth [0, 2] = 2 ∧ (1 : ℚ) ≠ 2 := by
  refine ⟨?_, ?_, by norm_num⟩
  · show some ((0 + (2 + 0)) / (2 : ℚ)) = some 1
    norm_num
  · norm_num [specMeanValidDepth, specValidDepths]

/-- C4 (amended): for every nonempty depth map the reporter computes the mean
and the variance over all pixels of the map (no valid-pixel filtering), and
reports the square of ±1.96·σ as the uncertainty band; the report is a pure
function of the current frame's depth map, with no accumulation. -/
theorem measurements_over_all_pixels (d : List ℚ) (h : d ≠ []) :
    (calculatePreciseMeasurements d).map MeasurementReport.meanDepth =
        some (d.sum / (d.length : ℚ)) ∧
      (calculatePreciseMeasurements d).map MeasurementReport.varDepth =
        some ((d.map fun x => (x - d.sum / (d.length : ℚ)) ^ 2).sum / (d.length : ℚ)) ∧
      (calculatePreciseMeasurements d).map MeasurementReport.uncertaintyBandSq =
        some (((49 : ℚ) / 25) ^ 2 *
          ((d.map fun x => (x - d.sum / (d.length : ℚ)) ^ 2).sum / (d.length : ℚ))) := by
  have hne : ¬ (d.isEmpty = true) := by
    simp [List.isEmpty_iff, h]
  have hn : (d.length : ℚ) ≠ 0 :=
    Nat.cast_ne_zero.mpr fun hl => h (List.length_eq_zero.mp hl)
  have hvar : (d.map fun x => x * x).sum / (d.length : ℚ) -
      d.sum / (d.length : ℚ) * (d.sum / (d.length : ℚ)) =
      (d.map fun x => (x - d.sum / (d.length : ℚ)) ^ 2).sum / (d.length : ℚ) := by
    rw [sum_sq_sub d (d.sum / (d.length : ℚ))]
    field_simp
    ring
  unfold calculatePreciseMeasurements
  rw [if_neg hne]
  refine ⟨rfl, ?_, ?_⟩ <;> simp only [Option.map_some'] <;> rw [← hvar]

/-- Witness for C4's amended theorem at the concrete depth map `[1, 3]`. -/
theorem measurements_over_all_pixels_witness :
    ([1, 3] : List ℚ) ≠ [] ∧
      (calculatePreciseMeasurements [1, 3]).map MeasurementReport.meanDepth =
        some (([1, 3] : List ℚ).sum / ([1, 3] : List ℚ).length) :=
  ⟨by decide, (measurements_over_all_pixels [1, 3] (by decide)).1⟩

/-- C6: the triangulation pass is classified as high quality exactly when its
mean two-view reprojection error (total of the per-point errors against both
cameras, divided by twice the point count) is below 1 pixel, degraded exactly
when it is at least 1 and below 2, and unreliable exactly when it is 2 or
more; the triangulated points are handed to `store3DPoints` in full,
regardless of the classification — unreliable passes are reported, not
discarded. -/
theorem triangulation_quality_classification (points3D : List Pt3)
    (errors1 errors2 : List ℚ) (hlen : errors1.length = errors2.length)
    (hpos : 0 < errors1.length) :
    ((validateAndStore points3D errors1 errors2).1 = TriQuality.highQuality ↔
        meanReprojError errors1 errors2 < 1) ∧
      ((validateAndStore points3D errors1 errors2).1 = TriQuality.degraded ↔
        1 ≤ meanReprojError errors1 errors2 ∧ meanReprojError errors1 errors2 < 2) ∧
      ((validateAndStore points3D errors1 errors2).1 = TriQuality.unreliable ↔
        2 ≤ meanReprojError errors1 errors2) ∧
      (validateAndStore points3D errors1 errors2).2 = points3D := by
  unfold validateAndStore classifyTriangulation store3DPoints
  refine ⟨?_, ?_, ?_, rfl⟩ <;>
    by_cases hq1 : meanReprojError errors1 errors2 < 1 <;>
    by_cases hq2 : meanReprojError errors1 errors2 < 2 <;>
    simp [hq1, hq2] <;>
    first
      | linarith
      | (constructor <;> intro hx <;> first | cases hx | linarith)

/-- Witness for C6 at a concrete pass: one point, errors 3 and 1, mean error
(3 + 1)/2 = 2, classified unreliable. -/
theorem triangulation_quality_classification_witness :
    (validateAndStore [] [(3 : ℚ)] [(1 : ℚ)]).1 = TriQuality.unreliable :=
  ((triangulation_quality_classification [] [3] [1] rfl (by decide)).2.2.1).mpr
    (by norm_num [meanReprojError])

/-- C7: the synchronization warning of `processMultiFrame` fires exactly when
more than one timestamp was submitted and the maximum timestamp minus the
minimum exceeds the 16.667 ms tolerance, and the batch is processed either
way: the resulting synchronized frame set is exactly the one built by the
decode-and-store loop, independent of the timestamps.  Concretely, two
cameras 5 ms apart produce no warning, while 50 ms apart produce the warning
together with a non-empty frame set. -/
theorem syncWarning_soft_invariant (frameDataList : List (Option Frame))
    (timestamps : List ℚ) (cameraIds : List Nat) :
    ((processMultiFrame frameDataList timestamps cameraIds).1 = true ↔
        1 < timestamps.length ∧
          syncTolerance < listMax timestamps - listMin timestamps) ∧
      ((processMultiFrame frameDataList timestamps cameraIds).2 =
        storeDecodedFrames (cameraIds.zip frameDataList)) ∧
      (processMultiFrame [some 1, some 2] [0, 5 / 1000] [0, 1]).1 = false ∧
      (processMultiFrame [some 1, some 2] [0, 50 / 1000] [0, 1]).1 = true ∧
      (processMultiFrame [some 1, some 2] [0, 50 / 1000] [0, 1]).2 = [(0, 1), (1, 2)] := by
  refine ⟨?_, rfl, ?_, ?_, rfl⟩
  · unfold processMultiFrame
    by_cases h : 1 < timestamps.length
    · simp [h]
    · simp [h]
  · show (if (1 : Nat) < 2 then
        decide (syncTolerance < listMax [0, 5 / 1000] - listMin [0, 5 / 1000])
      else false) = false
    rw [if_pos (by norm_num)]
    simp only [decide_eq_false_iff_not, not_lt]
    norm_num [syncTolerance, listMax, listMin]
  · show (if (1 : Nat) < 2 then
        decide (syncTolerance < listMax [0, 50 / 1000] - listMin [0, 50 / 1000])
      else false) = true
    rw [if_pos (by norm_num)]
    simp only [decide_eq_true_eq]
    norm_num [syncTolerance, listMax, listMin]

/-- C8: a decode failure for one camera only removes that camera from the
resulting synchronized frame set and never aborts the batch: looking up any
submitted camera id in the resulting set yields exactly its decode result —
`none` (absent) when its decode failed, and its decoded frame when it
succeeded — whatever happened to the other cameras in the batch. -/
theorem decodeFailure_isolated (frameDataList : List (Option Frame))
    (timestamps : List ℚ) (cameraIds : List Nat) (hnd : cameraIds.Nodup)
    (hlen : cameraIds.length = frameDataList.length) (camId : Nat)
    (decoded : Option Frame) (hmem : (camId, decoded) ∈ cameraIds.zip frameDataList) :
    List.lookup camId (processMultiFrame frameDataList timestamps cameraIds).2 = decoded := by
  have hkeys : (cameraIds.zip frameDataList).map Prod.fst = cameraIds :=
    List.map_fst_zip _ _ (le_of_eq hlen)
  have hnd2 : ((cameraIds.zip frameDataList).map Prod.fst).Nodup := by
    rw [hkeys]
    exact hnd
  show List.lookup camId (storeDecodedFrames (cameraIds.zip frameDataList)) = decoded
  rw [lookup_storeDecodedFrames _ _ hnd2,
    lookup_of_mem_nodup _ _ _ hnd2 hmem]
  rfl

/-- Witness for C8: three submitted frames with the middle decode failing —
camera 1 is absent from the result while camera 2 (decoded after the failure)
is present with its frame. -/
theorem decodeFailure_isolated_witness :
    List.lookup 1 (processMultiFrame [some 10, none, some 30] [0, 0, 0] [0, 1, 2]).2 =
        none ∧
      List.lookup 2 (processMultiFrame [some 10, none, some 30] [0, 0, 0] [0, 1, 2]).2 =
        some 30 :=
  ⟨decodeFailure_isolated [some 10, none, some 30] [0, 0, 0] [0, 1, 2]
      (by decide) rfl 1 none (by decide),
    decodeFailure_isolated [some 10, none, some 30] [0, 0, 0] [0, 1, 2]
      (by decide) rfl 2 (some 30) (by decide)⟩
